import Mathlib

/-!
Verification development for the White Circle case-studies backend
(`src/main.py`, `src/schemas.py`).

Documents are modelled as association lists of field name / field value
pairs (the shape of the JSON / BSON objects the service manipulates).
The store adapter (`database.py`) is not part of the repository sources;
its operations are modelled from the spec (§2 Document Store Adapter).
Pydantic / FastAPI validation semantics are likewise modelled from the
spec (§2 Schema Validator, §7), applied to the field declarations that
ARE in the sources (`src/schemas.py`, `src/main.py`).
-/

namespace WhiteCircle

/-- Model `Metric`, src/schemas.py lines 43-45: a label/value pair. -/
structure Metric where
  label : String
  value : String
deriving DecidableEq

/-- The field values that occur in this application's documents and
payloads.  `vId` stands for the store-assigned ObjectId (opaque, shown
via its string form); `vNum` covers the numeric `performance_score`. -/
inductive Value where
  | vNull
  | vStr (s : String)
  | vBool (b : Bool)
  | vNum (x : Rat)
  | vStrList (elems : List String)
  | vMetricList (elems : List Metric)
  | vId (n : Nat)
deriving DecidableEq

/-- A document / payload: an association list from field names to values
(first binding wins, as in a Python dict with unique keys). -/
abbrev Doc := List (String × Value)

/-- Dict lookup on a document. -/
def lookupKey : Doc → String → Option Value
  | [], _ => none
  | (k', v) :: rest, k => if k' = k then some v else lookupKey rest k

/-- Remove a key from a document (Python `dict.pop`). -/
def eraseKey (d : Doc) (k : String) : Doc :=
  d.filter (fun p => p.1 ≠ k)

/-- Case-insensitive substring test: `pat` occurs inside `hay` after
lowercasing both.  This is the match performed by the store for the
`$regex`/`$options: "i"` clauses built at src/main.py lines 104-110
(modelled from the spec §4.1: case-insensitive substring match; regex
metacharacter passthrough is explicitly out of scope there). -/
def ciContains (hay pat : String) : Bool :=
  (List.range ((hay.toList.map Char.toLower).length + 1)).any
    (fun i => List.isPrefixOf (pat.toList.map Char.toLower)
      ((hay.toList.map Char.toLower).drop i))

/-- Python truthiness of an optional query-parameter string: `None` and
`""` are falsy (src/main.py lines 98-104 use `if industry:` etc.). -/
def truthy : Option String → Bool
  | none => false
  | some s => !(s == "")

/-- The filter document built by the handlers: the keys that
`list_case_studies` (src/main.py lines 97-110) and
`featured_case_studies` (line 117) may put into `filters`. -/
structure Filters where
  industry : Option String := none
  campaign_type : Option String := none
  scope : Option String := none
  q : Option String := none
  featured : Option Bool := none
deriving DecidableEq

/-- Filter construction of src/main.py lines 97-110: each parameter
contributes its clause only when truthy. -/
def buildFilters (q industry scope campaign_type : Option String) : Filters :=
  { industry := if truthy industry then industry else none
    campaign_type := if truthy campaign_type then campaign_type else none
    scope := if truthy scope then scope else none
    q := if truthy q then q else none }

/-- The store's evaluation of a `$regex … $options "i"` clause on a
field value: a string field matches by case-insensitive substring, an
array-of-strings field matches when some element does, anything else
(missing field included) does not match.  Modelled from the spec
(§2 Document Store Adapter, §4.1). -/
def valueCi (v : Option Value) (pat : String) : Bool :=
  match v with
  | some (.vStr s) => ciContains s pat
  | some (.vStrList l) => l.any (fun s => ciContains s pat)
  | _ => false

/-- Modelled from the spec: the document store's filter evaluation
(`database.py` is absent from src/).  Exact-match clauses compare the
stored value; `scope`'s `$in` clause is membership in the stored
sequence; the `q` clause is the OR of the four regex clauses of
src/main.py lines 105-110; `featured` is the exact-match clause of
line 117.  Absent clauses (`none`) hold vacuously. -/
def matchesFilters (f : Filters) (d : Doc) : Bool :=
  (match f.industry with
   | none => true
   | some x => lookupKey d "industry" == some (.vStr x)) &&
  (match f.campaign_type with
   | none => true
   | some x => lookupKey d "campaign_type" == some (.vStr x)) &&
  (match f.scope with
   | none => true
   | some x =>
     match lookupKey d "scope" with
     | some (.vStrList l) => l.contains x
     | _ => false) &&
  (match f.q with
   | none => true
   | some z =>
     valueCi (lookupKey d "brand") z ||
     valueCi (lookupKey d "headline") z ||
     valueCi (lookupKey d "highlight") z ||
     valueCi (lookupKey d "tags") z) &&
  (match f.featured with
   | none => true
   | some b => lookupKey d "featured" == some (.vBool b))

/-- Modelled from the spec: `find(collection, filter, limit)` of the
Document Store Adapter (§2) — the documents of the (single) `casestudy`
collection satisfying the filter, in insertion order, truncated to
`limit`. -/
def get_documents (store : List Doc) (f : Filters) (limit : Nat) : List Doc :=
  (store.filter (fun d => matchesFilters f d)).take limit

/-- Model `CaseStudy`, src/schemas.py lines 47-63: the declared field
set (names, types, required/optional, defaults) of the write schema.
URL fields are kept as plain optional strings; their format validation
is delegated to the validation library (spec §2) and not modelled, as
no claim depends on it. -/
structure CaseStudy where
  brand : String
  logo_url : Option String := none
  industry : String
  scope : List String := []
  campaign_type : String
  headline : String
  highlight : String
  metrics : List Metric := []
  tags : List String := []
  video_url : Option String := none
  featured : Bool := false
  performance_score : Option Rat := none
deriving DecidableEq

/-- An optional string field as it is stored (Python `None` ↦ null). -/
def optStrVal : Option String → Value
  | none => .vNull
  | some s => .vStr s

/-- An optional numeric field as it is stored. -/
def optNumVal : Option Rat → Value
  | none => .vNull
  | some x => .vNum x

/-- The document persisted for a validated `CaseStudy` payload: every
declared field, in declaration order (the payload's dict form). -/
def csToDoc (c : CaseStudy) : Doc :=
  [("brand", .vStr c.brand),
   ("logo_url", optStrVal c.logo_url),
   ("industry", .vStr c.industry),
   ("scope", .vStrList c.scope),
   ("campaign_type", .vStr c.campaign_type),
   ("headline", .vStr c.headline),
   ("highlight", .vStr c.highlight),
   ("metrics", .vMetricList c.metrics),
   ("tags", .vStrList c.tags),
   ("video_url", optStrVal c.video_url),
   ("featured", .vBool c.featured),
   ("performance_score", optNumVal c.performance_score)]

/-- Modelled from the spec: `insert(collection, document) -> id` of the
Document Store Adapter (§2, `database.py` absent from src/).  The store
appends the document with a fresh opaque identifier and returns that
identifier. -/
def create_document (store : List Doc) (c : CaseStudy) : List Doc × Nat :=
  (store ++ [("_id", .vId store.length) :: csToDoc c], store.length)

/-! ### Schema validation (modelled from the spec)

The validation library itself is an external collaborator (spec §2
Schema Validator, §7 Validation failure): it checks field presence and
type against the declarations of src/schemas.py lines 47-63, collects a
per-field error description, and rejects the payload before any store
call.  A plain `str` declaration constrains only presence and type. -/

/-- Errors for a required string field. -/
def reqStrErr (d : Doc) (k : String) : List String :=
  match lookupKey d k with
  | some (.vStr _) => []
  | some _ => [k ++ ": value is not a valid string"]
  | none => [k ++ ": field required"]

/-- Errors for an optional URL field (format check not modelled). -/
def optUrlErr (d : Doc) (k : String) : List String :=
  match lookupKey d k with
  | none => []
  | some .vNull => []
  | some (.vStr _) => []
  | some _ => [k ++ ": value is not a valid url"]

/-- Errors for a `List[str]` field with default `[]`. -/
def strListErr (d : Doc) (k : String) : List String :=
  match lookupKey d k with
  | none => []
  | some (.vStrList _) => []
  | some _ => [k ++ ": value is not a valid list of strings"]

/-- Errors for a `List[Metric]` field with default `[]`. -/
def metricListErr (d : Doc) (k : String) : List String :=
  match lookupKey d k with
  | none => []
  | some (.vMetricList _) => []
  | some _ => [k ++ ": value is not a valid list of metrics"]

/-- Errors for a `bool` field with default `False`. -/
def boolErr (d : Doc) (k : String) : List String :=
  match lookupKey d k with
  | none => []
  | some (.vBool _) => []
  | some _ => [k ++ ": value is not a valid boolean"]

/-- Errors for an `Optional[float]` field. -/
def optNumErr (d : Doc) (k : String) : List String :=
  match lookupKey d k with
  | none => []
  | some .vNull => []
  | some (.vNum _) => []
  | some _ => [k ++ ": value is not a valid number"]

/-- All per-field errors of a `CaseStudy` payload, in the declaration
order of src/schemas.py lines 52-63. -/
def fieldErrors (d : Doc) : List String :=
  reqStrErr d "brand" ++ optUrlErr d "logo_url" ++ reqStrErr d "industry" ++
  strListErr d "scope" ++ reqStrErr d "campaign_type" ++ reqStrErr d "headline" ++
  reqStrErr d "highlight" ++ metricListErr d "metrics" ++ strListErr d "tags" ++
  optUrlErr d "video_url" ++ boolErr d "featured" ++ optNumErr d "performance_score"

/-- Extract a string field (meaningful only when the field validated). -/
def getStr (d : Doc) (k : String) : String :=
  match lookupKey d k with
  | some (.vStr s) => s
  | _ => ""

/-- Extract an optional string field. -/
def getOptStr (d : Doc) (k : String) : Option String :=
  match lookupKey d k with
  | some (.vStr s) => some s
  | _ => none

/-- Extract a string-list field, defaulting to `[]`. -/
def getStrList (d : Doc) (k : String) : List String :=
  match lookupKey d k with
  | some (.vStrList l) => l
  | _ => []

/-- Extract a metric-list field, defaulting to `[]`. -/
def getMetricList (d : Doc) (k : String) : List Metric :=
  match lookupKey d k with
  | some (.vMetricList l) => l
  | _ => []

/-- Extract a boolean field, defaulting to `false`. -/
def getBool (d : Doc) (k : String) : Bool :=
  match lookupKey d k with
  | some (.vBool b) => b
  | _ => false

/-- Extract an optional numeric field. -/
def getOptNum (d : Doc) (k : String) : Option Rat :=
  match lookupKey d k with
  | some (.vNum x) => some x
  | _ => none

/-- Modelled from the spec: validation of a write payload against the
`CaseStudy` declarations (src/schemas.py lines 47-63).  Rejects with
the collected per-field errors, otherwise produces the validated
record with the declared defaults. -/
def validateCaseStudy (d : Doc) : Except (List String) CaseStudy :=
  if fieldErrors d = [] then
    .ok { brand := getStr d "brand"
          logo_url := getOptStr d "logo_url"
          industry := getStr d "industry"
          scope := getStrList d "scope"
          campaign_type := getStr d "campaign_type"
          headline := getStr d "headline"
          highlight := getStr d "highlight"
          metrics := getMetricList d "metrics"
          tags := getStrList d "tags"
          video_url := getOptStr d "video_url"
          featured := getBool d "featured"
          performance_score := getOptNum d "performance_score" }
  else .error (fieldErrors d)

/-- Response model `CaseStudyOut`, src/main.py lines 67-79: the declared
output field set.  Note it declares no `video_url` field. -/
structure CaseStudyOut where
  id : String
  brand : String
  logo_url : Option String := none
  industry : String
  scope : List String := []
  campaign_type : String
  headline : String
  highlight : String
  metrics : List Metric := []
  tags : List String := []
  featured : Bool := false
  performance_score : Option Rat := none
deriving DecidableEq

/-- Python `str()` of a stored value, used on the `_id` ObjectId. -/
def valueStr : Value → String
  | .vId n => toString n
  | .vStr s => s
  | .vBool b => toString b
  | .vNum x => toString x
  | .vNull => "None"
  | .vStrList _ => ""
  | .vMetricList _ => ""

/-- Function `_serialize`, src/main.py lines 82-86: copy the document, pop `_id`
when present and add its string form under the new key `id`. -/
def _serialize (doc : Doc) : Doc :=
  match lookupKey doc "_id" with
  | some v => eraseKey doc "_id" ++ [("id", .vStr (valueStr v))]
  | none => doc

/-- Per-field errors of `CaseStudyOut(**doc)` against the declarations
of src/main.py lines 67-79 (validation library semantics modelled from
the spec; keys outside the declared field set are ignored). -/
def outFieldErrors (d : Doc) : List String :=
  reqStrErr d "id" ++ reqStrErr d "brand" ++ optUrlErr d "logo_url" ++
  reqStrErr d "industry" ++ strListErr d "scope" ++ reqStrErr d "campaign_type" ++
  reqStrErr d "headline" ++ reqStrErr d "highlight" ++ metricListErr d "metrics" ++
  strListErr d "tags" ++ boolErr d "featured" ++ optNumErr d "performance_score"

/-- Construction `CaseStudyOut(**doc)`: builds the response record from a serialized
document, applying the declared defaults for absent optional fields and
dropping keys that are not declared output fields; fails (a server
error) when a required declared field is missing or ill-typed. -/
def mkCaseStudyOut (d : Doc) : Except (List String) CaseStudyOut :=
  if outFieldErrors d = [] then
    .ok { id := getStr d "id"
          brand := getStr d "brand"
          logo_url := getOptStr d "logo_url"
          industry := getStr d "industry"
          scope := getStrList d "scope"
          campaign_type := getStr d "campaign_type"
          headline := getStr d "headline"
          highlight := getStr d "highlight"
          metrics := getMetricList d "metrics"
          tags := getStrList d "tags"
          featured := getBool d "featured"
          performance_score := getOptNum d "performance_score" }
  else .error (outFieldErrors d)

/-- The wire form of a `CaseStudyOut` record: exactly the declared
output fields of src/main.py lines 67-79. -/
def outDoc (o : CaseStudyOut) : Doc :=
  [("id", .vStr o.id),
   ("brand", .vStr o.brand),
   ("logo_url", optStrVal o.logo_url),
   ("industry", .vStr o.industry),
   ("scope", .vStrList o.scope),
   ("campaign_type", .vStr o.campaign_type),
   ("headline", .vStr o.headline),
   ("highlight", .vStr o.highlight),
   ("metrics", .vMetricList o.metrics),
   ("tags", .vStrList o.tags),
   ("featured", .vBool o.featured),
   ("performance_score", optNumVal o.performance_score)]

/-- Comprehension `[CaseStudyOut(**_serialize(d)) for d in docs]` (src/main.py
line 112): shape each document left to right, failing at the first
document that does not fit the response model. -/
def shapeDocs : List Doc → Except (List String) (List CaseStudyOut)
  | [] => .ok []
  | d :: rest =>
    match mkCaseStudyOut (_serialize d) with
    | .error e => .error e
    | .ok o =>
      match shapeDocs rest with
      | .error e => .error e
      | .ok os => .ok (o :: os)

/-- Handler `list_case_studies`, src/main.py lines 89-112, together with the
framework's `Query(24, ge=1, le=100)` bound check on `limit` (modelled
from the spec §6: requests with `limit` outside [1,100] are rejected
before querying). -/
def list_case_studies (store : List Doc)
    (q industry scope campaign_type : Option String) (limit : Int) :
    Except (List String) (List CaseStudyOut) :=
  if limit < 1 || 100 < limit then .error ["limit out of range"]
  else shapeDocs (get_documents store (buildFilters q industry scope campaign_type) limit.toNat)

/-- Handler `featured_case_studies`, src/main.py lines 115-118, with the
framework's `Query(6, ge=1, le=12)` bound check on `limit`. -/
def featured_case_studies (store : List Doc) (limit : Int) :
    Except (List String) (List CaseStudyOut) :=
  if limit < 1 || 12 < limit then .error ["limit out of range"]
  else shapeDocs (get_documents store { featured := some true } limit.toNat)

/-- Handler `create_case_study`, src/main.py lines 121-124, preceded by the
payload validation the framework performs before the handler runs: an
invalid payload is rejected and the store is untouched; a valid one is
inserted and its new identifier returned. -/
def create_case_study (store : List Doc) (payload : Doc) :
    List Doc × Except (List String) Nat :=
  match validateCaseStudy payload with
  | .error e => (store, .error e)
  | .ok cs =>
    let r := create_document store cs
    (r.1, .ok r.2)

/-- The three fixed sample records of src/main.py lines 134-184. -/
def samples : List CaseStudy :=
  [{ brand := "Aurora Beauty"
     logo_url := some "https://dummyimage.com/80x80/eeeeee/000000&text=A"
     industry := "Beauty"
     scope := ["Performance", "UGC", "Influencer"]
     campaign_type := "Integrated"
     headline := "From launch to leadership in 3 months"
     highlight := "4.3x ROAS and 1M+ engagements"
     metrics := [⟨"ROAS", "4.3x"⟩, ⟨"Engagements", "1M+"⟩, ⟨"Reach", "2.1M"⟩]
     tags := ["beauty", "makeup", "ecommerce"]
     featured := true
     performance_score := some (925/10) },
   { brand := "Volt Wear"
     logo_url := some "https://dummyimage.com/80x80/eeeeee/000000&text=V"
     industry := "Fashion"
     scope := ["Branding", "Socials"]
     campaign_type := "Organic"
     headline := "Community-first brand building"
     highlight := "3x engagement via full-funnel social"
     metrics := [⟨"Engagement", "3x"⟩, ⟨"Followers", "+120k"⟩]
     tags := ["fashion", "social"]
     featured := true
     performance_score := some 88 },
   { brand := "Nova Foods"
     logo_url := some "https://dummyimage.com/80x80/eeeeee/000000&text=N"
     industry := "FMCG"
     scope := ["Performance", "Influencer"]
     campaign_type := "Paid"
     headline := "Retail lift with creator-led ads"
     highlight := "2.7x incremental sales in pilot markets"
     metrics := [⟨"ROAS", "3.1x"⟩, ⟨"Reach", "1.8M"⟩]
     tags := ["fmcg", "retail"]
     featured := false
     performance_score := some 81 }]

/-- Handler `seed_demo_data`, src/main.py lines 127-191: probe the collection
with an empty filter and limit 1; when anything exists report
`("exists", 0)` without writing, otherwise insert the samples one by
one counting the insertions. -/
def seed_demo_data (store : List Doc) : List Doc × String × Nat :=
  let existing := get_documents store {} 1
  if existing = [] then
    (samples.foldl (fun st s => (create_document st s).1) store, "seeded", samples.length)
  else (store, "exists", 0)

/-- The store handle as the diagnostic endpoint observes it: its name
and the outcome of a `list_collection_names()` call (modelled from the
spec — the database client is external). -/
structure DBHandle where
  name : String
  collectionNames : Except String (List String)

/-- The structured report of `/test`. -/
structure TestResponse where
  backend : String
  database : String
  database_url : String
  database_name : String
  connection_status : String
  collections : List String
deriving DecidableEq

/-- Handler `test_database`, src/main.py lines 31-63: the report built by the
sequence of assignments.  `database_url` and `database_name` are
overwritten unconditionally by the environment checks at lines 61-62,
so the final report carries only the environment outcome there;
`connection_status` is set at line 48 before the collections probe, so
it reads "Connected" even when that probe fails. -/
def test_database (db : Option DBHandle) (urlSet nameSet : Bool) : TestResponse :=
  { backend := "✅ Running"
    database :=
      match db with
      | none => "⚠️  Available but not initialized"
      | some h =>
        match h.collectionNames with
        | .ok _ => "✅ Connected & Working"
        | .error e => "⚠️  Connected but Error: " ++ e.take 50
    database_url := if urlSet then "✅ Set" else "❌ Not Set"
    database_name := if nameSet then "✅ Set" else "❌ Not Set"
    connection_status :=
      match db with
      | none => "Not Connected"
      | some _ => "Connected"
    collections :=
      match db with
      | none => []
      | some h =>
        match h.collectionNames with
        | .ok cs => cs.take 10
        | .error _ => [] }

/-! ### Spec-side filter clauses (claim C2's wording), to be compared
with what `buildFilters`/`matchesFilters` actually compute. -/

/-- Spec clause: "exact-match constraint on industry when industry is
supplied". -/
def specIndustryClause (industry : Option String) (d : Doc) : Bool :=
  match industry with
  | none => true
  | some x => lookupKey d "industry" == some (.vStr x)

/-- Spec clause: "exact-match constraint on campaign_type when
campaign_type is supplied". -/
def specCampaignClause (campaign_type : Option String) (d : Doc) : Bool :=
  match campaign_type with
  | none => true
  | some x => lookupKey d "campaign_type" == some (.vStr x)

/-- Spec clause: "the document's scope sequence contains the given term
exactly, when scope is supplied". -/
def specScopeClause (scope : Option String) (d : Doc) : Bool :=
  match scope with
  | none => true
  | some x =>
    match lookupKey d "scope" with
    | some (.vStrList l) => l.contains x
    | _ => false

/-- Spec clause: the free-text clause, itself an OR across the four
fields, when `q` is supplied. -/
def specQClause (q : Option String) (d : Doc) : Bool :=
  match q with
  | none => true
  | some z =>
    valueCi (lookupKey d "brand") z ||
    valueCi (lookupKey d "headline") z ||
    valueCi (lookupKey d "highlight") z ||
    valueCi (lookupKey d "tags") z

/-- A key/value binding present only when the value is given. -/
def optField (k : String) : Option Value → Doc
  | none => []
  | some v => [(k, v)]

/-- A stored case-study document with its store identifier, the five
required string fields, and each optional field either absent from
storage (`none`) or present with a stored value: the general shape the
response shaper receives. -/
def mkStoredDoc (oid : Nat) (brand industry campaign_type headline highlight : String)
    (logo : Option (Option String)) (scope : Option (List String))
    (metrics : Option (List Metric)) (tags : Option (List String))
    (video : Option (Option String)) (featured : Option Bool)
    (score : Option (Option Rat)) : Doc :=
  ("_id", .vId oid) :: ("brand", .vStr brand) :: ("industry", .vStr industry) ::
  ("campaign_type", .vStr campaign_type) :: ("headline", .vStr headline) ::
  ("highlight", .vStr highlight) ::
  (optField "logo_url" (logo.map optStrVal) ++
   optField "scope" (scope.map Value.vStrList) ++
   optField "metrics" (metrics.map Value.vMetricList) ++
   optField "tags" (tags.map Value.vStrList) ++
   optField "video_url" (video.map optStrVal) ++
   optField "featured" (featured.map Value.vBool) ++
   optField "performance_score" (score.map optNumVal))

/-- A concrete valid case study used to exercise the operations. -/
def demoCs : CaseStudy :=
  { brand := "Aurora Beauty"
    industry := "Beauty"
    campaign_type := "Integrated"
    headline := "From launch to leadership"
    highlight := "4.3x ROAS"
    tags := ["beauty", "makeup"]
    featured := true }

/-- The stored form of `demoCs` under store identifier 0. -/
def demoDoc : Doc := ("_id", Value.vId 0) :: csToDoc demoCs

/-! ### Helper lemmas -/

theorem matchesFilters_empty (d : Doc) : matchesFilters {} d = true := rfl

theorem filter_matchesFilters_empty (store : List Doc) :
    store.filter (fun d => matchesFilters {} d) = store :=
  List.filter_eq_self.mpr (fun a _ => matchesFilters_empty a)

theorem mem_get_documents {store : List Doc} {f : Filters} {lim : Nat} {d : Doc}
    (hlen : store.length ≤ lim) :
    d ∈ get_documents store f lim ↔ d ∈ store ∧ matchesFilters f d = true := by
  unfold get_documents
  rw [List.take_of_length_le (le_trans (List.length_filter_le _ _) hlen)]
  exact List.mem_filter

theorem mem_of_mem_get_documents {store : List Doc} {f : Filters} {lim : Nat} {d : Doc}
    (hd : d ∈ get_documents store f lim) :
    d ∈ store ∧ matchesFilters f d = true := by
  unfold get_documents at hd
  exact List.mem_filter.mp (List.mem_of_mem_take hd)

theorem length_get_documents_le (store : List Doc) (f : Filters) (lim : Nat) :
    (get_documents store f lim).length ≤ lim := by
  unfold get_documents
  rw [List.length_take]
  exact min_le_left _ _

theorem shapeDocs_ok_length {ds : List Doc} {os : List CaseStudyOut}
    (h : shapeDocs ds = .ok os) : os.length = ds.length := by
  induction ds generalizing os with
  | nil =>
    unfold shapeDocs at h
    cases h
    rfl
  | cons d rest ih =>
    unfold shapeDocs at h
    cases hm : mkCaseStudyOut (_serialize d) with
    | error e => rw [hm] at h; cases h
    | ok o =>
      rw [hm] at h
      cases hr : shapeDocs rest with
      | error e => rw [hr] at h; cases h
      | ok os' =>
        rw [hr] at h
        cases h
        simp [ih hr]

theorem shapeDocs_ok_of_forall {ds : List Doc}
    (h : ∀ d ∈ ds, ∃ o, mkCaseStudyOut (_serialize d) = .ok o) :
    ∃ os, shapeDocs ds = .ok os := by
  induction ds with
  | nil => exact ⟨[], rfl⟩
  | cons d rest ih =>
    obtain ⟨o, ho⟩ := h d (by simp)
    obtain ⟨os, hos⟩ := ih (fun d' hd' => h d' (by simp [hd']))
    refine ⟨o :: os, ?_⟩
    unfold shapeDocs
    rw [ho, hos]

theorem shapeDocs_mem {ds : List Doc} {os : List CaseStudyOut} {o : CaseStudyOut}
    (h : shapeDocs ds = .ok os) (ho : o ∈ os) :
    ∃ d ∈ ds, mkCaseStudyOut (_serialize d) = .ok o := by
  induction ds generalizing os with
  | nil =>
    unfold shapeDocs at h
    cases h
    cases ho
  | cons d rest ih =>
    unfold shapeDocs at h
    cases hm : mkCaseStudyOut (_serialize d) with
    | error e => rw [hm] at h; cases h
    | ok o' =>
      rw [hm] at h
      cases hr : shapeDocs rest with
      | error e => rw [hr] at h; cases h
      | ok os' =>
        rw [hr] at h
        cases h
        rcases List.mem_cons.mp ho with h1 | h2
        · exact ⟨d, by simp, h1 ▸ hm⟩
        · obtain ⟨d', hd', ho'⟩ := ih hr h2
          exact ⟨d', by simp [hd'], ho'⟩

theorem shapeDocs_mem_of {ds : List Doc} {os : List CaseStudyOut} {d : Doc} {o : CaseStudyOut}
    (h : shapeDocs ds = .ok os) (hd : d ∈ ds) (ho : mkCaseStudyOut (_serialize d) = .ok o) :
    o ∈ os := by
  induction ds generalizing os with
  | nil => cases hd
  | cons d₀ rest ih =>
    unfold shapeDocs at h
    cases hm : mkCaseStudyOut (_serialize d₀) with
    | error e => rw [hm] at h; cases h
    | ok o₀ =>
      rw [hm] at h
      cases hr : shapeDocs rest with
      | error e => rw [hr] at h; cases h
      | ok os' =>
        rw [hr] at h
        cases h
        rcases List.mem_cons.mp hd with h1 | h2
        · subst h1
          rw [hm] at ho
          cases ho
          simp
        · simp [ih hr h2]

theorem lookupKey_append (d₁ d₂ : Doc) (k : String) :
    lookupKey (d₁ ++ d₂) k =
      (match lookupKey d₁ k with
       | some v => some v
       | none => lookupKey d₂ k) := by
  induction d₁ with
  | nil => rfl
  | cons p rest ih =>
    obtain ⟨k', v⟩ := p
    by_cases hk : k' = k
    · simp [lookupKey, hk]
    · simp [lookupKey, hk, ih]

theorem lookupKey_eraseKey {d : Doc} {k k' : String} (h : k ≠ k') :
    lookupKey (eraseKey d k') k = lookupKey d k := by
  induction d with
  | nil => rfl
  | cons p rest ih =>
    obtain ⟨k₀, v⟩ := p
    have hrest : lookupKey (List.filter (fun p => !decide (p.1 = k')) rest) k =
        lookupKey rest k := by simpa [eraseKey] using ih
    by_cases h0 : k₀ = k'
    · subst h0
      have hkk : ¬ k₀ = k := fun he => h (he ▸ rfl)
      simp [eraseKey, lookupKey, List.filter_cons, hkk, hrest]
    · by_cases h1 : k₀ = k
      · subst h1
        simp [eraseKey, lookupKey, List.filter_cons, h0]
      · simp [eraseKey, lookupKey, List.filter_cons, h0, h1, hrest]

theorem lookupKey_serialize {d : Doc} {k : String} (h1 : k ≠ "_id") (h2 : k ≠ "id") :
    lookupKey (_serialize d) k = lookupKey d k := by
  unfold _serialize
  cases hid : lookupKey d "_id" with
  | none => rfl
  | some v =>
    rw [lookupKey_append, lookupKey_eraseKey h1]
    cases hk : lookupKey d k with
    | some w => rfl
    | none =>
      have hik : ¬ "id" = k := fun he => h2 he.symm
      simp [lookupKey, hik]

theorem mkCaseStudyOut_featured {d : Doc} {o : CaseStudyOut}
    (h : mkCaseStudyOut d = .ok o) : o.featured = getBool d "featured" := by
  unfold mkCaseStudyOut at h
  split at h
  · cases h; rfl
  · cases h

theorem matchesFilters_featured {d : Doc}
    (h : matchesFilters { featured := some true } d = true) :
    lookupKey d "featured" = some (.vBool true) := by
  unfold matchesFilters at h
  simpa using h

theorem isPrefixOf_nil_left {α : Type} [BEq α] (l : List α) :
    List.isPrefixOf ([] : List α) l = true := by
  cases l <;> rfl

theorem ciContains_empty (hay : String) : ciContains hay "" = true := by
  unfold ciContains
  rw [show ("".toList.map Char.toLower) = [] from rfl]
  simp only [List.any_eq_true]
  exact ⟨0, by simp, isPrefixOf_nil_left _⟩

/-! ### Claims -/

/-- Claim C2: the filter builder produces the logical AND of the exact-match
constraint on `industry`, the exact-match constraint on
`campaign_type`, the `scope` membership constraint and the free-text
OR-clause, each present exactly when its parameter is supplied; with no
parameters supplied the filter is empty and matches every document. -/
theorem c2_filter_builder_conjunction (q industry scope campaign_type : Option String)
    (d : Doc) (hq : q ≠ some "") (hi : industry ≠ some "") (hs : scope ≠ some "")
    (hc : campaign_type ≠ some "") :
    matchesFilters (buildFilters q industry scope campaign_type) d =
      (specIndustryClause industry d && specCampaignClause campaign_type d &&
       specScopeClause scope d && specQClause q d) ∧
    matchesFilters (buildFilters none none none none) d = true := by
  refine ⟨?_, rfl⟩
  rcases q with _ | zq <;> rcases industry with _ | zi <;> rcases scope with _ | zs <;>
    rcases campaign_type with _ | zc <;>
    simp_all [matchesFilters, buildFilters, truthy, specIndustryClause,
      specCampaignClause, specScopeClause, specQClause, beq_iff_eq]

/-- Witness for C2 at concrete inputs. -/
theorem c2_witness :
    matchesFilters (buildFilters (some "be") none (some "UGC") (some "Integrated")) demoDoc =
      (specIndustryClause none demoDoc && specCampaignClause (some "Integrated") demoDoc &&
       specScopeClause (some "UGC") demoDoc && specQClause (some "be") demoDoc) ∧
    matchesFilters (buildFilters none none none none) demoDoc = true :=
  c2_filter_builder_conjunction (some "be") none (some "UGC") (some "Integrated") demoDoc
    (by decide) (by decide) (by decide) (by decide)

/-- Claim C3: seeding is idempotent — a non-empty collection is left
untouched with status `"exists"`/0; an empty collection receives
exactly the three fixed sample records with status `"seeded"`/3; a
second invocation therefore never inserts. -/
theorem c3_seed_idempotent (store : List Doc) :
    (store ≠ [] → seed_demo_data store = (store, "exists", 0)) ∧
    (store = [] →
      (seed_demo_data store).2 = ("seeded", 3) ∧ (seed_demo_data store).1.length = 3) ∧
    seed_demo_data (seed_demo_data store).1 = ((seed_demo_data store).1, "exists", 0) := by
  have hne : ∀ st : List Doc, st ≠ [] → seed_demo_data st = (st, "exists", 0) := by
    intro st hst
    cases st with
    | nil => exact absurd rfl hst
    | cons a l => simp [seed_demo_data, get_documents, filter_matchesFilters_empty]
  refine ⟨hne store, ?_, ?_⟩
  · intro h
    subst h
    exact ⟨rfl, rfl⟩
  · by_cases h : store = []
    · subst h
      have hlen : (seed_demo_data []).1.length = 3 := rfl
      exact hne _ (fun hnil => by rw [hnil] at hlen; cases hlen)
    · rw [hne store h]
      exact hne store h

/-- Witness for C3: seeding a non-empty store is a no-op, seeding an
empty store inserts the three samples. -/
theorem c3_witness :
    seed_demo_data [demoDoc] = ([demoDoc], "exists", 0) ∧
    (seed_demo_data []).2 = ("seeded", 3) ∧ (seed_demo_data []).1.length = 3 :=
  ⟨(c3_seed_idempotent [demoDoc]).1 (by simp),
   ((c3_seed_idempotent []).2.1 rfl).1, ((c3_seed_idempotent []).2.1 rfl).2⟩

/-- Claim C8: the diagnostic endpoint always produces its structured report,
and every check is reported independently — the backend banner is
constant, each environment field depends only on its own environment
flag, and the database/connection fields depend only on the store
handle, for every combination of check outcomes. -/
theorem c8_diagnostic_independent (db db' : Option DBHandle) (u u' n n' : Bool) :
    (test_database db u n).backend = "✅ Running" ∧
    (test_database db u n).database_url = (test_database db' u n').database_url ∧
    (test_database db u n).database_name = (test_database db' u' n).database_name ∧
    (test_database db u n).database = (test_database db u' n').database ∧
    (test_database db u n).connection_status = (test_database db u' n').connection_status := by
  refine ⟨rfl, ?_, ?_, rfl, rfl⟩ <;> simp [test_database]

/-- Claim C10: supplying any of the four query parameters as the empty string
builds the same filter — and returns the same list result — as omitting
the parameter. -/
theorem c10_empty_param_as_omitted (store : List Doc)
    (q industry scope campaign_type : Option String) (lim : Int) :
    buildFilters (some "") industry scope campaign_type =
      buildFilters none industry scope campaign_type ∧
    buildFilters q (some "") scope campaign_type =
      buildFilters q none scope campaign_type ∧
    buildFilters q industry (some "") campaign_type =
      buildFilters q industry none campaign_type ∧
    buildFilters q industry scope (some "") =
      buildFilters q industry scope none ∧
    list_case_studies store (some "") industry scope campaign_type lim =
      list_case_studies store none industry scope campaign_type lim ∧
    list_case_studies store q (some "") scope campaign_type lim =
      list_case_studies store q none scope campaign_type lim ∧
    list_case_studies store q industry (some "") campaign_type lim =
      list_case_studies store q industry none campaign_type lim ∧
    list_case_studies store q industry scope (some "") lim =
      list_case_studies store q industry scope none lim :=
  ⟨rfl, rfl, rfl, rfl, rfl, rfl, rfl, rfl⟩

/-- Claim C1: with only the free-text parameter `q = z` supplied, a stored
document is selected by the list operation's query iff `z` is a
case-insensitive substring of its brand, its headline, its highlight,
or of some element of its tags.  Membership is stated on the documents
the query returns (before response shaping), with a limit at least the
store size so that truncation does not hide matches. -/
theorem c1_q_filter_correct (store : List Doc) (d : Doc) (z : String) (lim : Nat)
    (b hdl hgl : String) (ts : List String)
    (hd : d ∈ store) (hlen : store.length ≤ lim)
    (hb : lookupKey d "brand" = some (.vStr b))
    (hh : lookupKey d "headline" = some (.vStr hdl))
    (hg : lookupKey d "highlight" = some (.vStr hgl))
    (ht : lookupKey d "tags" = some (.vStrList ts)) :
    d ∈ get_documents store (buildFilters (some z) none none none) lim ↔
      (ciContains b z = true ∨ ciContains hdl z = true ∨ ciContains hgl z = true ∨
       ∃ t ∈ ts, ciContains t z = true) := by
  rw [mem_get_documents hlen]
  by_cases hz : z = ""
  · subst hz
    constructor
    · intro _
      exact Or.inl (ciContains_empty b)
    · intro _
      exact ⟨hd, rfl⟩
  · have hbf : buildFilters (some z) none none none = { q := some z } := by
      simp [buildFilters, truthy, hz]
    rw [hbf]
    simp [matchesFilters, hb, hh, hg, ht, valueCi, hd, List.any_eq_true]
    tauto

/-- Witness for C1: the demo document is found by `q=BEAU`. -/
theorem c1_witness :
    demoDoc ∈ get_documents [demoDoc] (buildFilters (some "BEAU") none none none) 10 :=
  (c1_q_filter_correct [demoDoc] demoDoc "BEAU" 10 "Aurora Beauty"
      "From launch to leadership" "4.3x ROAS" ["beauty", "makeup"]
      (by simp) (by decide) (by decide) (by decide) (by decide) (by decide)).mpr
    (Or.inl (by decide))

/-- Claim C7: a successful list (or featured) response never holds more than
`limit` records, and a `limit` outside [1,100] (list) or [1,12]
(featured) is rejected — the handler body, and with it the store query,
is never reached. -/
theorem c7_limit_bounds (store : List Doc) (q industry scope campaign_type : Option String)
    (lim : Int) (outs outs' : List CaseStudyOut) :
    (list_case_studies store q industry scope campaign_type lim = .ok outs →
      (outs.length : Int) ≤ lim) ∧
    (lim < 1 ∨ 100 < lim →
      list_case_studies store q industry scope campaign_type lim =
        .error ["limit out of range"]) ∧
    (featured_case_studies store lim = .ok outs' → (outs'.length : Int) ≤ lim) ∧
    (lim < 1 ∨ 12 < lim →
      featured_case_studies store lim = .error ["limit out of range"]) := by
  refine ⟨?_, ?_, ?_, ?_⟩
  · intro h
    unfold list_case_studies at h
    by_cases hc : lim < 1 ∨ 100 < lim
    · rw [if_pos (by rcases hc with h0 | h0 <;> simp [h0])] at h
      cases h
    · rw [not_or] at hc
      rw [if_neg (by simp [hc.1, hc.2])] at h
      have h1 := shapeDocs_ok_length h
      have h2 := length_get_documents_le store
        (buildFilters q industry scope campaign_type) lim.toNat
      omega
  · intro hc
    unfold list_case_studies
    rw [if_pos (by rcases hc with h0 | h0 <;> simp [h0])]
  · intro h
    unfold featured_case_studies at h
    by_cases hc : lim < 1 ∨ 12 < lim
    · rw [if_pos (by rcases hc with h0 | h0 <;> simp [h0])] at h
      cases h
    · rw [not_or] at hc
      rw [if_neg (by simp [hc.1, hc.2])] at h
      have h1 := shapeDocs_ok_length h
      have h2 := length_get_documents_le store { featured := some true } lim.toNat
      omega
  · intro hc
    unfold featured_case_studies
    rw [if_pos (by rcases hc with h0 | h0 <;> simp [h0])]

/-- Witness for C7: a one-document store yields one record under
limit 24, and out-of-range limits are rejected on both endpoints. -/
theorem c7_witness :
    (([{ id := "0", brand := "Aurora Beauty", industry := "Beauty",
         campaign_type := "Integrated", headline := "From launch to leadership",
         highlight := "4.3x ROAS", tags := ["beauty", "makeup"],
         featured := true }] : List CaseStudyOut).length : Int) ≤ 24 ∧
    list_case_studies [demoDoc] none none none none 101 =
      .error ["limit out of range"] ∧
    featured_case_studies [demoDoc] 0 = .error ["limit out of range"] :=
  ⟨(c7_limit_bounds [demoDoc] none none none none 24 _ []).1 rfl,
   (c7_limit_bounds [demoDoc] none none none none 101 [] []).2.1 (Or.inr (by decide)),
   (c7_limit_bounds [demoDoc] none none none none 0 [] []).2.2.2 (Or.inl (by decide))⟩

/-- Claim C9: every record a successful featured-list response carries has
`featured = true`. -/
theorem c9_featured_only (store : List Doc) (lim : Int) (outs : List CaseStudyOut)
    (h : featured_case_studies store lim = .ok outs) (o : CaseStudyOut) (ho : o ∈ outs) :
    o.featured = true := by
  unfold featured_case_studies at h
  split at h
  · cases h
  · obtain ⟨d, hd, hmk⟩ := shapeDocs_mem h ho
    have hmf := (mem_of_mem_get_documents hd).2
    have hfeat := matchesFilters_featured hmf
    have hser : lookupKey (_serialize d) "featured" = some (.vBool true) := by
      rw [lookupKey_serialize (by decide) (by decide), hfeat]
    rw [mkCaseStudyOut_featured hmk]
    unfold getBool
    rw [hser]

/-- Witness for C9 on a concrete store. -/
theorem c9_witness :
    ({ id := "0", brand := "Aurora Beauty", industry := "Beauty",
       campaign_type := "Integrated", headline := "From launch to leadership",
       highlight := "4.3x ROAS", tags := ["beauty", "makeup"],
       featured := true } : CaseStudyOut).featured = true :=
  c9_featured_only [demoDoc] 6
    [{ id := "0", brand := "Aurora Beauty", industry := "Beauty",
       campaign_type := "Integrated", headline := "From launch to leadership",
       highlight := "4.3x ROAS", tags := ["beauty", "makeup"],
       featured := true }]
    rfl _ (by decide)

theorem reqStrErr_ne {d : Doc} {k : String}
    (hbad : lookupKey d k = none ∨ ∃ v, lookupKey d k = some v ∧ ∀ s, v ≠ .vStr s) :
    reqStrErr d k ≠ [] := by
  unfold reqStrErr
  rcases hbad with h | ⟨v, hv, hns⟩
  · rw [h]
    simp
  · rw [hv]
    cases v with
    | vNull => simp
    | vStr s => exact absurd rfl (hns s)
    | vBool b => simp
    | vNum x => simp
    | vStrList l => simp
    | vMetricList l => simp
    | vId n => simp

/-- Claim C4 (counterexample to the claim as stated): a payload whose
required `brand` field is the empty string passes validation and IS
inserted — the declared schema constrains presence and type only, not
non-emptiness. -/
theorem c4_counterexample :
    validateCaseStudy
        [("brand", Value.vStr ""), ("industry", Value.vStr "Beauty"),
         ("campaign_type", Value.vStr "Paid"), ("headline", Value.vStr "H"),
         ("highlight", Value.vStr "HL")] =
      .ok { brand := "", industry := "Beauty", campaign_type := "Paid",
            headline := "H", highlight := "HL" } ∧
    (create_case_study []
        [("brand", Value.vStr ""), ("industry", Value.vStr "Beauty"),
         ("campaign_type", Value.vStr "Paid"), ("headline", Value.vStr "H"),
         ("highlight", Value.vStr "HL")]).1.length = 1 :=
  ⟨rfl, rfl⟩

/-- Claim C4 (amended): a create payload that misses one of the five required
fields, or supplies it with a non-string value, is rejected with the
per-field error description before any store call — the store is
returned unchanged, so no document is inserted.  (An empty string in a
required field is NOT rejected; only presence and type are checked.) -/
theorem c4_validation_rejects (store : List Doc) (payload : Doc) (k : String)
    (hk : k ∈ ["brand", "industry", "campaign_type", "headline", "highlight"])
    (hbad : lookupKey payload k = none ∨
      ∃ v, lookupKey payload k = some v ∧ ∀ s, v ≠ .vStr s) :
    fieldErrors payload ≠ [] ∧
    validateCaseStudy payload = .error (fieldErrors payload) ∧
    create_case_study store payload = (store, .error (fieldErrors payload)) := by
  have hre := reqStrErr_ne hbad
  have hfe : fieldErrors payload ≠ [] := by
    intro h
    unfold fieldErrors at h
    simp only [List.append_eq_nil] at h
    simp only [List.mem_cons, List.not_mem_nil, or_false] at hk
    rcases hk with hk | hk | hk | hk | hk <;> subst hk <;> tauto
  have hv : validateCaseStudy payload = .error (fieldErrors payload) := by
    unfold validateCaseStudy
    rw [if_neg hfe]
  refine ⟨hfe, hv, ?_⟩
  unfold create_case_study
  rw [hv]

/-- Witness for C4 (amended): a payload missing `brand` is rejected and
nothing is written. -/
theorem c4_witness :
    fieldErrors
        [("industry", Value.vStr "Beauty"), ("campaign_type", Value.vStr "Paid"),
         ("headline", Value.vStr "H"), ("highlight", Value.vStr "HL")] ≠ [] ∧
    validateCaseStudy
        [("industry", Value.vStr "Beauty"), ("campaign_type", Value.vStr "Paid"),
         ("headline", Value.vStr "H"), ("highlight", Value.vStr "HL")] =
      .error (fieldErrors
        [("industry", Value.vStr "Beauty"), ("campaign_type", Value.vStr "Paid"),
         ("headline", Value.vStr "H"), ("highlight", Value.vStr "HL")]) ∧
    create_case_study []
        [("industry", Value.vStr "Beauty"), ("campaign_type", Value.vStr "Paid"),
         ("headline", Value.vStr "H"), ("highlight", Value.vStr "HL")] =
      ([], .error (fieldErrors
        [("industry", Value.vStr "Beauty"), ("campaign_type", Value.vStr "Paid"),
         ("headline", Value.vStr "H"), ("highlight", Value.vStr "HL")])) :=
  c4_validation_rejects []
    [("industry", Value.vStr "Beauty"), ("campaign_type", Value.vStr "Paid"),
     ("headline", Value.vStr "H"), ("highlight", Value.vStr "HL")]
    "brand" (by decide) (Or.inl rfl)

/-- Claim C6 (counterexample to the claim as stated): a stored document whose
`video_url` field is present is shaped into an output record that does
NOT carry that field — the response model declares no `video_url`, so
the shaper does not pass every present field through. -/
theorem c6_counterexample :
    lookupKey (("_id", Value.vId 7) :: csToDoc
        { brand := "Aurora", industry := "Beauty", campaign_type := "Paid",
          headline := "H", highlight := "HL",
          video_url := some "https://example.com/v.mp4" }) "video_url" =
      some (.vStr "https://example.com/v.mp4") ∧
    mkCaseStudyOut (_serialize (("_id", Value.vId 7) :: csToDoc
        { brand := "Aurora", industry := "Beauty", campaign_type := "Paid",
          headline := "H", highlight := "HL",
          video_url := some "https://example.com/v.mp4" })) =
      .ok { id := "7", brand := "Aurora", industry := "Beauty",
            campaign_type := "Paid", headline := "H", highlight := "HL" } ∧
    lookupKey (outDoc { id := "7", brand := "Aurora", industry := "Beauty",
                        campaign_type := "Paid", headline := "H",
                        highlight := "HL" }) "video_url" = none :=
  ⟨rfl, rfl, rfl⟩

/-- Claim C6 (amended): for every stored document the shaper replaces `_id`
by its string form under `id`, passes the declared output fields
through unchanged, and applies the defaults (`scope`/`tags`/`metrics`
empty, `featured` false, the rest null) to the optional ones absent
from storage; a stored `video_url` (and any field outside the declared
output set) is dropped from the output. -/
theorem lookupKey_optField_self (k : String) (v : Option Value) :
    lookupKey (optField k v) k = v := by
  cases v <;> simp [optField, lookupKey]

theorem lookupKey_optField_ne {k k' : String} (v : Option Value) (h : ¬ k' = k) :
    lookupKey (optField k' v) k = none := by
  cases v <;> simp [optField, lookupKey, h]

theorem c6_shaper_amended (oid : Nat)
    (brand industry campaign_type headline highlight : String)
    (logo : Option (Option String)) (scope : Option (List String))
    (metrics : Option (List Metric)) (tags : Option (List String))
    (video : Option (Option String)) (featured : Option Bool)
    (score : Option (Option Rat)) :
    mkCaseStudyOut (_serialize (mkStoredDoc oid brand industry campaign_type headline
        highlight logo scope metrics tags video featured score)) =
      .ok { id := toString oid, brand := brand, logo_url := logo.join,
            industry := industry, scope := scope.getD [],
            campaign_type := campaign_type, headline := headline,
            highlight := highlight, metrics := metrics.getD [],
            tags := tags.getD [], featured := featured.getD false,
            performance_score := score.join } ∧
    lookupKey (outDoc { id := toString oid, brand := brand, logo_url := logo.join,
                        industry := industry, scope := scope.getD [],
                        campaign_type := campaign_type, headline := headline,
                        highlight := highlight, metrics := metrics.getD [],
                        tags := tags.getD [], featured := featured.getD false,
                        performance_score := score.join }) "video_url" = none := by
  refine ⟨?_, rfl⟩
  have hid : lookupKey (mkStoredDoc oid brand industry campaign_type headline highlight
      logo scope metrics tags video featured score) "_id" = some (.vId oid) := by
    simp [mkStoredDoc, lookupKey]
  have hbr : lookupKey (mkStoredDoc oid brand industry campaign_type headline highlight
      logo scope metrics tags video featured score) "brand" = some (.vStr brand) := by
    simp [mkStoredDoc, lookupKey]
  have hin : lookupKey (mkStoredDoc oid brand industry campaign_type headline highlight
      logo scope metrics tags video featured score) "industry" = some (.vStr industry) := by
    simp [mkStoredDoc, lookupKey]
  have hct : lookupKey (mkStoredDoc oid brand industry campaign_type headline highlight
      logo scope metrics tags video featured score) "campaign_type" =
      some (.vStr campaign_type) := by
    simp [mkStoredDoc, lookupKey]
  have hhd : lookupKey (mkStoredDoc oid brand industry campaign_type headline highlight
      logo scope metrics tags video featured score) "headline" = some (.vStr headline) := by
    simp [mkStoredDoc, lookupKey]
  have hhl : lookupKey (mkStoredDoc oid brand industry campaign_type headline highlight
      logo scope metrics tags video featured score) "highlight" = some (.vStr highlight) := by
    simp [mkStoredDoc, lookupKey]
  have hlo : lookupKey (mkStoredDoc oid brand industry campaign_type headline highlight
      logo scope metrics tags video featured score) "logo_url" = logo.map optStrVal := by
    cases logo <;>
      simp [mkStoredDoc, lookupKey, lookupKey_append,
        lookupKey_optField_self, lookupKey_optField_ne]
  have hsc : lookupKey (mkStoredDoc oid brand industry campaign_type headline highlight
      logo scope metrics tags video featured score) "scope" =
      scope.map Value.vStrList := by
    cases scope <;>
      simp [mkStoredDoc, lookupKey, lookupKey_append,
        lookupKey_optField_self, lookupKey_optField_ne]
  have hms : lookupKey (mkStoredDoc oid brand industry campaign_type headline highlight
      logo scope metrics tags video featured score) "metrics" =
      metrics.map Value.vMetricList := by
    cases metrics <;>
      simp [mkStoredDoc, lookupKey, lookupKey_append,
        lookupKey_optField_self, lookupKey_optField_ne]
  have hts : lookupKey (mkStoredDoc oid brand industry campaign_type headline highlight
      logo scope metrics tags video featured score) "tags" =
      tags.map Value.vStrList := by
    cases tags <;>
      simp [mkStoredDoc, lookupKey, lookupKey_append,
        lookupKey_optField_self, lookupKey_optField_ne]
  have hft : lookupKey (mkStoredDoc oid brand industry campaign_type headline highlight
      logo scope metrics tags video featured score) "featured" =
      featured.map Value.vBool := by
    cases featured <;>
      simp [mkStoredDoc, lookupKey, lookupKey_append,
        lookupKey_optField_self, lookupKey_optField_ne]
  have hps : lookupKey (mkStoredDoc oid brand industry campaign_type headline highlight
      logo scope metrics tags video featured score) "performance_score" =
      score.map optNumVal := by
    cases score <;>
      simp [mkStoredDoc, lookupKey, lookupKey_append,
        lookupKey_optField_self, lookupKey_optField_ne]
  have hnoid : lookupKey (mkStoredDoc oid brand industry campaign_type headline highlight
      logo scope metrics tags video featured score) "id" = none := by
    simp [mkStoredDoc, lookupKey, lookupKey_append, lookupKey_optField_ne]
  have hser : _serialize (mkStoredDoc oid brand industry campaign_type headline highlight
      logo scope metrics tags video featured score) =
      eraseKey (mkStoredDoc oid brand industry campaign_type headline highlight
        logo scope metrics tags video featured score) "_id" ++
        [("id", .vStr (toString oid))] := by
    unfold _serialize
    rw [hid]
    rfl
  have hidser : lookupKey (_serialize (mkStoredDoc oid brand industry campaign_type
      headline highlight logo scope metrics tags video featured score)) "id" =
      some (.vStr (toString oid)) := by
    rw [hser, lookupKey_append, lookupKey_eraseKey (by decide), hnoid]
    simp [lookupKey]
  rcases logo with _ | (_ | _) <;> rcases score with _ | (_ | _) <;>
    rcases scope with _ | _ <;> rcases metrics with _ | _ <;>
    rcases tags with _ | _ <;> rcases featured with _ | _ <;>
    simp [mkCaseStudyOut, outFieldErrors, reqStrErr, optUrlErr, strListErr,
      metricListErr, boolErr, optNumErr, getStr, getOptStr, getStrList,
      getMetricList, getBool, getOptNum, optStrVal, optNumVal,
      lookupKey_serialize, hbr, hin, hct, hhd, hhl, hlo,
      hsc, hms, hts, hft, hps, hidser]

theorem mkCaseStudyOut_serialize_new (cs : CaseStudy) (n : Nat) :
    mkCaseStudyOut (_serialize (("_id", Value.vId n) :: csToDoc cs)) =
      .ok { id := toString n, brand := cs.brand, logo_url := cs.logo_url,
            industry := cs.industry, scope := cs.scope,
            campaign_type := cs.campaign_type, headline := cs.headline,
            highlight := cs.highlight, metrics := cs.metrics,
            tags := cs.tags, featured := cs.featured,
            performance_score := cs.performance_score } := by
  rcases cs with ⟨b, lo, i, sc, ct, hd, hl, ms, ts, vu, f, ps⟩
  rcases lo with _ | s <;> rcases ps with _ | x <;>
    simp [mkCaseStudyOut, _serialize, eraseKey, lookupKey, csToDoc, outFieldErrors,
      reqStrErr, optUrlErr, strListErr, metricListErr, boolErr, optNumErr, getStr,
      getOptStr, getStrList, getMetricList, getBool, getOptNum, valueStr,
      optStrVal, optNumVal, List.filter]

/-- Claim C5 (counterexample to the claim as stated): creating a payload
whose `video_url` is set and listing with no filters yields a single
record that does not carry `video_url` at all, so no returned record's
fields equal the payload modulo only the added `id`. -/
theorem c5_counterexample :
    lookupKey (csToDoc
        { brand := "Aurora", industry := "Beauty", campaign_type := "Paid",
          headline := "H", highlight := "HL",
          video_url := some "https://example.com/v.mp4" }) "video_url" =
      some (.vStr "https://example.com/v.mp4") ∧
    list_case_studies (create_case_study [] (csToDoc
        { brand := "Aurora", industry := "Beauty", campaign_type := "Paid",
          headline := "H", highlight := "HL",
          video_url := some "https://example.com/v.mp4" })).1
        none none none none 24 =
      .ok [{ id := "0", brand := "Aurora", industry := "Beauty",
             campaign_type := "Paid", headline := "H", highlight := "HL" }] ∧
    lookupKey (outDoc { id := "0", brand := "Aurora", industry := "Beauty",
                        campaign_type := "Paid", headline := "H",
                        highlight := "HL" }) "video_url" = none :=
  ⟨rfl, rfl, rfl⟩

/-- Claim C5 (amended): after creating a valid payload, an unfiltered list
with sufficient limit (over a store whose documents all fit the
response model) includes a record equal to the payload on every
response-model field, with the store identifier added as the string
`id` — `video_url` being absent from the response model and therefore
dropped. -/
theorem c5_create_then_list (store : List Doc) (payload : Doc) (cs : CaseStudy) (lim : Int)
    (hv : validateCaseStudy payload = .ok cs)
    (hstore : ∀ d ∈ store, ∃ o, mkCaseStudyOut (_serialize d) = .ok o)
    (h1 : 1 ≤ lim) (h2 : lim ≤ 100) (hlen : store.length + 1 ≤ lim.toNat) :
    ∃ outs,
      list_case_studies (create_case_study store payload).1 none none none none lim =
        .ok outs ∧
      { id := toString store.length, brand := cs.brand, logo_url := cs.logo_url,
        industry := cs.industry, scope := cs.scope, campaign_type := cs.campaign_type,
        headline := cs.headline, highlight := cs.highlight, metrics := cs.metrics,
        tags := cs.tags, featured := cs.featured,
        performance_score := cs.performance_score } ∈ outs := by
  have hcreate : (create_case_study store payload).1 =
      store ++ [("_id", Value.vId store.length) :: csToDoc cs] := by
    unfold create_case_study
    rw [hv]
    rfl
  have hnew := mkCaseStudyOut_serialize_new cs store.length
  have hall : ∀ d ∈ store ++ [("_id", Value.vId store.length) :: csToDoc cs],
      ∃ o, mkCaseStudyOut (_serialize d) = .ok o := by
    intro d hd
    rcases List.mem_append.mp hd with h | h
    · exact hstore d h
    · rw [List.mem_singleton.mp h]
      exact ⟨_, hnew⟩
  obtain ⟨os, hos⟩ := shapeDocs_ok_of_forall hall
  have hmem := shapeDocs_mem_of hos (by simp) hnew
  refine ⟨os, ?_, hmem⟩
  rw [hcreate]
  unfold list_case_studies
  rw [if_neg (by simp only [Bool.or_eq_true, decide_eq_true_eq]; omega)]
  have hget : get_documents (store ++ [("_id", Value.vId store.length) :: csToDoc cs])
      (buildFilters none none none none) lim.toNat =
      store ++ [("_id", Value.vId store.length) :: csToDoc cs] := by
    unfold get_documents
    rw [show buildFilters none none none none = {} from rfl, filter_matchesFilters_empty]
    apply List.take_of_length_le
    simp only [List.length_append, List.length_cons, List.length_nil]
    omega
  rw [hget]
  exact hos

/-- Witness for C5 (amended) on a concrete payload and empty store. -/
theorem c5_witness :
    ∃ outs,
      list_case_studies (create_case_study [] (csToDoc demoCs)).1
        none none none none 24 = .ok outs ∧
      { id := toString ([] : List Doc).length, brand := demoCs.brand,
        logo_url := demoCs.logo_url, industry := demoCs.industry,
        scope := demoCs.scope, campaign_type := demoCs.campaign_type,
        headline := demoCs.headline, highlight := demoCs.highlight,
        metrics := demoCs.metrics, tags := demoCs.tags, featured := demoCs.featured,
        performance_score := demoCs.performance_score } ∈ outs :=
  c5_create_then_list [] (csToDoc demoCs) demoCs 24 rfl (by simp)
    (by decide) (by decide) (by decide)

end WhiteCircle
